import Mathlib

/-!
Verification of the e-commerce API core in `src/project3.py`: a Flask +
SQLAlchemy + Marshmallow service over three entities (User, Order, Product)
with a many-to-many order/product association.

The shallow embedding models:
- the relational store as insertion-ordered lists of rows (autoincrement
  surrogate keys, so row order coincides with insertion order);
- marshmallow dump as functions producing a small JSON value type, with the
  nested-field truncation configured by the three schema classes;
- marshmallow load as per-field error aggregation exactly as the schema
  classes declare the fields (note that the explicit
  `address = fields.Str(validate=Length(min=5, max=150))` declaration in
  `UserSchema` overrides the auto-derived column field and does NOT set
  `required=True`);
- each route handler as a function from store (plus parsed input) to an
  HTTP result and a new store. An unhandled Python exception (a TypeError
  in `jsonify`, or a database IntegrityError escaping `commit`) is modelled
  as `HttpResult.serverError`, the 500-equivalent the framework produces.

Timestamps are modelled as `Nat` and the numeric `price` column as `Int`;
no claim depends on arithmetic over these values, only on their presence.
-/

namespace Project3

/-- A JSON value, the wire representation produced by marshmallow dump. -/
inductive Json where
| null : Json
| num : Int → Json
| str : String → Json
| arr : List Json → Json
| obj : List (String × Json) → Json

/-- Keys of a JSON object (empty for non-objects). -/
def Json.keys : Json → List String
| .obj fs => fs.map Prod.fst
| _ => []

/-- Field lookup in a JSON object; `null` when absent or not an object. -/
def Json.getField (j : Json) (k : String) : Json :=
match j with
| .obj fs => (((fs.find? (fun kv => kv.1 == k)).map Prod.snd).getD .null)
| _ => .null

/-- Elements of a JSON array (empty for non-arrays). -/
def Json.elems : Json → List Json
| .arr xs => xs
| _ => []

/-- Row of the `users` table (`class User`, project3.py lines 38-45). -/
structure User where
  id : Nat
  name : String
  address : String
  email : String
deriving Repr, DecidableEq

/-- Row of the `orders` table (`class Order`, lines 47-54). `order_date`
is a timestamp modelled as `Nat`. -/
structure Order where
  id : Nat
  order_date : Nat
  user_id : Nat
deriving Repr, DecidableEq

/-- Row of the `products` table (`class Product`, lines 58-64). The float
`price` column is modelled as `Int`; no claim computes with it. -/
structure Product where
  id : Nat
  product_name : String
  price : Int
deriving Repr, DecidableEq

/-- The relational store: the four tables, each as an insertion-ordered list
of rows. `order_product` is the association table of (order_id, product_id)
pairs (lines 30-35); its composite primary key makes the pair unique, kept
here as a `Nodup` hypothesis where a claim needs it. -/
structure Store where
  users : List User
  orders : List Order
  products : List Product
  order_product : List (Nat × Nat)
deriving Repr, DecidableEq

/-- The empty store (fresh `db.create_all()` schema). -/
def emptyStore : Store := ⟨[], [], [], []⟩

/-- `db.session.get(User, uid)`: primary-key lookup. -/
def findUser (st : Store) (uid : Nat) : Option User :=
st.users.find? (fun u => u.id == uid)

/-- `db.session.get(Order, oid)`: primary-key lookup. -/
def findOrder (st : Store) (oid : Nat) : Option Order :=
st.orders.find? (fun o => o.id == oid)

/-- `db.session.get(Product, pid)`: primary-key lookup. -/
def findProduct (st : Store) (pid : Nat) : Option Product :=
st.products.find? (fun p => p.id == pid)

/-- The `User.orders` relationship: orders whose foreign key points at the
user (line 45). -/
def userOrders (st : Store) (uid : Nat) : List Order :=
st.orders.filter (fun o => o.user_id == uid)

/-- The `Order.products` relationship: products reached through the
association table rows of this order (line 54). -/
def orderProducts (st : Store) (oid : Nat) : List Product :=
(st.order_product.filter (fun pr => pr.1 == oid)).filterMap
  (fun pr => findProduct st pr.2)

/-- The `Product.orders` relationship: orders reached through the
association table rows of this product (line 64). -/
def productOrders (st : Store) (pid : Nat) : List Order :=
(st.order_product.filter (fun pr => pr.2 == pid)).filterMap
  (fun pr => findOrder st pr.1)

/-- Nested Order inside `UserSchema`: `only=("id", "order_date")`
(lines 113-119). -/
def dumpOrderBrief (o : Order) : Json :=
.obj [("id", .num o.id), ("order_date", .num o.order_date)]

/-- Nested Order inside `ProductSchema`: `only=("id", "order_date",
"user_id")` (lines 75-81). -/
def dumpOrderForProduct (o : Order) : Json :=
.obj [("id", .num o.id), ("order_date", .num o.order_date),
      ("user_id", .num o.user_id)]

/-- Nested User inside `OrderSchema`: `only=("id", "name", "email")`
(lines 90-94). -/
def dumpUserBrief (u : User) : Json :=
.obj [("id", .num u.id), ("name", .str u.name), ("email", .str u.email)]

/-- Nested Product inside `OrderSchema`: `only=("id", "product_name",
"price")` (lines 95-101). -/
def dumpProductBrief (p : Product) : Json :=
.obj [("id", .num p.id), ("product_name", .str p.product_name),
      ("price", .num p.price)]

/-- Full `UserSchema` dump (lines 103-119): own columns plus the orders
collection truncated by `dumpOrderBrief`. -/
def dumpUser (st : Store) (u : User) : Json :=
.obj [("id", .num u.id), ("name", .str u.name), ("address", .str u.address),
      ("email", .str u.email),
      ("orders", .arr ((userOrders st u.id).map dumpOrderBrief))]

/-- Full `OrderSchema` dump (lines 83-101): own columns (`include_fk` keeps
`user_id`), the owning user truncated by `dumpUserBrief` (null if the
foreign key dangles), and the products truncated by `dumpProductBrief`. -/
def dumpOrder (st : Store) (o : Order) : Json :=
.obj [("id", .num o.id), ("order_date", .num o.order_date),
      ("user_id", .num o.user_id),
      ("user", (findUser st o.user_id).elim Json.null dumpUserBrief),
      ("products", .arr ((orderProducts st o.id).map dumpProductBrief))]

/-- Full `ProductSchema` dump (lines 69-81): own columns plus the orders
collection truncated by `dumpOrderForProduct`. -/
def dumpProduct (st : Store) (p : Product) : Json :=
.obj [("id", .num p.id), ("product_name", .str p.product_name),
      ("price", .num p.price),
      ("orders", .arr ((productOrders st p.id).map dumpOrderForProduct))]

/-- Outcome of a request: an HTTP response with a status and JSON body, or
an unhandled Python exception, which Flask turns into a 500. -/
inductive HttpResult where
| resp : Nat → Json → HttpResult
| serverError : String → HttpResult

/-- Argument to `flask.jsonify`: the handlers pass a dict everywhere except
`get_user` line 143, which passes a Python set literal holding the single
string User not found. -/
inductive PyVal where
| dict : Json → PyVal
| pyset : List String → PyVal

/-- `flask.jsonify`: serializes a dict, raises `TypeError` on a set (sets
are not JSON serializable by the default Flask JSON provider). -/
def jsonify : PyVal → Except String Json
| .dict j => .ok j
| .pyset _ => .error "TypeError: Object of type set is not JSON serializable"

/-- The one-key error dict the handlers build inline. -/
def errObj (msg : String) : Json := .obj [("error", .str msg)]

/-- The one-key message dict the delete handlers build inline. -/
def msgObj (msg : String) : Json := .obj [("message", .str msg)]

/-- GET /users (lines 133-136): dump every row of the users table. -/
def get_users (st : Store) : HttpResult :=
.resp 200 (.arr (st.users.map (dumpUser st)))

/-- GET /products (lines 189-192): dump every row of the products table. -/
def get_products (st : Store) : HttpResult :=
.resp 200 (.arr (st.products.map (dumpProduct st)))

/-- GET /users/id (lines 139-144). On an absent id the source runs
`jsonify` on a set literal, so the 400 return is never reached: the
handler raises and Flask answers 500. The handler performs no write. -/
def get_user (st : Store) (uid : Nat) : HttpResult :=
match findUser st uid with
| none =>
  match jsonify (.pyset ["User not found"]) with
  | .ok j => .resp 400 j
  | .error e => .serverError e
| some u => .resp 200 (dumpUser st u)

/-- GET /products/id (lines 195-200). -/
def get_product (st : Store) (pid : Nat) : HttpResult :=
match findProduct st pid with
| none => .resp 404 (errObj "Product not found")
| some p => .resp 200 (dumpProduct st p)

/-- Wire payload for POST/PUT /users. The three loadable fields of
`UserSchema`: the auto-generated primary key is dump-only and `orders` is
declared `dump_only=True`, so neither is loadable. A field absent from the
request body is `none`. -/
structure UserPayload where
  name : Option String
  address : Option String
  email : Option String
deriving Repr, DecidableEq

/-- Wire payload for POST/PUT /products: the two loadable fields of
`ProductSchema`. -/
structure ProductPayload where
  product_name : Option String
  price : Option Int
deriving Repr, DecidableEq

/-- Split a character list at every occurrence of a separator. -/
def splitChar (sep : Char) : List Char → List (List Char)
| [] => [[]]
| c :: cs =>
  match splitChar sep cs with
  | [] => [[]]
  | r :: rs => if c = sep then [] :: r :: rs else (c :: r) :: rs

/-- Model of the marshmallow `Email` validator: one at sign separating a
nonempty user part from a domain that has a dot with nonempty labels.
This abstracts the exact library regex; the claims under proof depend only
on presence or absence of the field, never on the regex boundary. -/
def isValidEmail (s : String) : Bool :=
match splitChar '@' s.data with
| [userPart, domain] =>
  (!userPart.isEmpty) && (2 ≤ (splitChar '.' domain).length)
    && ((splitChar '.' domain).all (fun lbl => !lbl.isEmpty))
| _ => false

/-- Validation errors of the `name` field on User load: auto-derived from
the `String(100), nullable=False` column, so required with a maximum
length of 100. -/
def nameErrors (v : Option String) : List String :=
match v with
| none => ["Missing data for required field."]
| some s => if s.length ≤ 100 then [] else ["Longer than maximum length 100."]

/-- Validation errors of the `address` field on User load: the schema
declares `address = fields.Str(validate=Length(min=5, max=150))` at line
111, which replaces the auto-derived column field. `required=True` is not
set, so a missing address produces no error; a supplied address must have
length 5 to 150 inclusive. -/
def addressErrors (v : Option String) : List String :=
match v with
| none => []
| some s =>
  if 5 ≤ s.length ∧ s.length ≤ 150 then []
  else ["Length must be between 5 and 150."]

/-- Validation errors of the `email` field on User load: declared
`fields.Email(required=True)` at line 110. -/
def emailErrors (v : Option String) : List String :=
match v with
| none => ["Missing data for required field."]
| some s => if isValidEmail s then [] else ["Not a valid email address."]

/-- Validation errors of the `product_name` field on Product load:
auto-derived from the `String(100), nullable=False` column. -/
def productNameErrors (v : Option String) : List String :=
match v with
| none => ["Missing data for required field."]
| some s => if s.length ≤ 100 then [] else ["Longer than maximum length 100."]

/-- Validation errors of the `price` field on Product load: auto-derived
from the non-nullable float column, so required. -/
def priceErrors (v : Option Int) : List String :=
match v with
| none => ["Missing data for required field."]
| some _ => []

/-- One entry of the marshmallow error mapping: a field name keyed to its
message list, omitted when the field has no errors. -/
def fieldEntry (k : String) (es : List String) : List (String × List String) :=
if es = [] then [] else [(k, es)]

/-- The aggregated field-to-messages error mapping of a full (create mode)
`UserSchema.load`: every field is checked and every offending field is
listed. -/
def userLoadErrors (p : UserPayload) : List (String × List String) :=
fieldEntry "name" (nameErrors p.name)
  ++ fieldEntry "address" (addressErrors p.address)
  ++ fieldEntry "email" (emailErrors p.email)

/-- The aggregated error mapping of `UserSchema.load` with `partial=True`
(PUT /users/id): required checks are relaxed to absent-is-fine, while
supplied values are still validated. `nameErrors`/`emailErrors` only
differ from the create mode on `none`, which zero maps away. -/
def userPatchErrors (p : UserPayload) : List (String × List String) :=
fieldEntry "name" (if p.name = none then [] else nameErrors p.name)
  ++ fieldEntry "address" (addressErrors p.address)
  ++ fieldEntry "email" (if p.email = none then [] else emailErrors p.email)

/-- The aggregated error mapping of a full `ProductSchema.load`. -/
def productLoadErrors (p : ProductPayload) : List (String × List String) :=
fieldEntry "product_name" (productNameErrors p.product_name)
  ++ fieldEntry "price" (priceErrors p.price)

/-- The validated data of a successful create-mode User load. `address`
stays optional: the schema does not require it, even though the users
table column is NOT NULL. -/
structure NewUser where
  name : String
  address : Option String
  email : String
deriving Repr, DecidableEq

/-- Create-mode `user_schema.load` (line 150): aggregate all field errors;
on success hand back the validated data. The `getD` defaults are never
reached, since empty errors force `name` and `email` to be present. -/
def loadUser (p : UserPayload) : Except (List (String × List String)) NewUser :=
if userLoadErrors p = [] then
  .ok ⟨p.name.getD "", p.address, p.email.getD ""⟩
else .error (userLoadErrors p)

/-- The validated data of a successful `product_schema.load`. -/
structure NewProduct where
  product_name : String
  price : Int
deriving Repr, DecidableEq

/-- Create-mode `product_schema.load` (line 206). -/
def loadProduct (p : ProductPayload) :
    Except (List (String × List String)) NewProduct :=
if productLoadErrors p = [] then
  .ok ⟨p.product_name.getD "", p.price.getD 0⟩
else .error (productLoadErrors p)

/-- Render the marshmallow error mapping as the JSON body that
`jsonify(err.messages)` returns. -/
def errsToJson (errs : List (String × List String)) : Json :=
.obj (errs.map (fun kv => (kv.1, .arr (kv.2.map .str))))

/-- Next autoincrement surrogate key for a list of row ids. -/
def nextId (ids : List Nat) : Nat := ids.foldr max 0 + 1

/-- Apply a partial-mode load to an existing row: only supplied fields
change (marshmallow-sqlalchemy mutates the passed instance in place). -/
def applyUserPatch (u : User) (p : UserPayload) : User :=
{ u with name := p.name.getD u.name, address := p.address.getD u.address,
         email := p.email.getD u.email }

/-- POST /users (lines 147-156): load, 400 with the error mapping on
validation failure; otherwise insert and commit. The commit raises an
unhandled IntegrityError when the NOT NULL address column or the unique
email column is violated; nothing in the source catches it, so the
request ends in a 500. -/
def create_user (st : Store) (p : UserPayload) : HttpResult × Store :=
match loadUser p with
| .error errs => (.resp 400 (errsToJson errs), st)
| .ok nu =>
  match nu.address with
  | none => (.serverError "IntegrityError: column address cannot be null", st)
  | some addr =>
    if st.users.any (fun v => v.email == nu.email) then
      (.serverError "IntegrityError: duplicate entry for key email", st)
    else
      let u : User := ⟨nextId (st.users.map User.id), nu.name, addr, nu.email⟩
      let st' : Store := { st with users := st.users ++ [u] }
      (.resp 200 (dumpUser st' u), st')

/-- PUT /users/id (lines 159-172): 400 on an absent user; otherwise a
partial-mode load that validates the supplied fields, 400 with the error
mapping on failure, and on success mutates only the supplied fields and
commits. A duplicate email supplied here would raise an unhandled
IntegrityError at commit. -/
def update_user (st : Store) (uid : Nat) (p : UserPayload) :
    HttpResult × Store :=
match findUser st uid with
| none => (.resp 400 (errObj "User not found"), st)
| some u =>
  if userPatchErrors p = [] then
    if (match p.email with
        | some e => st.users.any (fun v => v.id != uid && v.email == e)
        | none => false) then
      (.serverError "IntegrityError: duplicate entry for key email", st)
    else
      let u' := applyUserPatch u p
      let st' : Store :=
        { st with users := st.users.map (fun v => if v.id == uid then u' else v) }
      (.resp 200 (dumpUser st' u'), st')
  else (.resp 400 (errsToJson (userPatchErrors p)), st)

/-- DELETE /users/id (lines 175-183): 400 with an error body on an absent
user; otherwise delete the row and answer with a confirmation message. -/
def delete_user (st : Store) (uid : Nat) : HttpResult × Store :=
match findUser st uid with
| none => (.resp 400 (errObj "User not found"), st)
| some _ =>
  let st' : Store := { st with users := st.users.filter (fun v => v.id != uid) }
  (.resp 200 (msgObj ("User " ++ toString uid ++ " deleted")), st')

/-- POST /products (lines 203-212). -/
def create_product (st : Store) (p : ProductPayload) : HttpResult × Store :=
match loadProduct p with
| .error errs => (.resp 400 (errsToJson errs), st)
| .ok np =>
  let pr : Product :=
    ⟨nextId (st.products.map Product.id), np.product_name, np.price⟩
  let st' : Store := { st with products := st.products ++ [pr] }
  (.resp 200 (dumpProduct st' pr), st')

/-- DELETE /products/id (lines 230-238): 404 with an error body on an
absent product; otherwise delete the row. -/
def delete_product (st : Store) (pid : Nat) : HttpResult × Store :=
match findProduct st pid with
| none => (.resp 404 (errObj "Product not found"), st)
| some _ =>
  let st' : Store :=
    { st with products := st.products.filter (fun v => v.id != pid) }
  (.resp 200 (msgObj ("Product " ++ toString pid ++ " deleted")), st')

/-- PUT /orders/oid/add_product/pid (lines 256-267): 400 when either side
of the pair is absent; otherwise append the association pair unless it is
already present, and answer with the dumped order. -/
def add_product_to_order (st : Store) (oid pid : Nat) : HttpResult × Store :=
match findOrder st oid, findProduct st pid with
| some o, some _ =>
  let st' : Store :=
    if (oid, pid) ∈ st.order_product then st
    else { st with order_product := st.order_product ++ [(oid, pid)] }
  (.resp 200 (dumpOrder st' o), st')
| _, _ => (.resp 400 (errObj "Order or product not found"), st)

/-- DELETE /orders/oid/remove_product/pid (lines 270-281): 404 when either
side of the pair is absent; otherwise remove the association pair if it is
present (`list.remove` drops the first occurrence, modelled by
`List.erase`), and answer with the dumped order. -/
def remove_product_from_order (st : Store) (oid pid : Nat) :
    HttpResult × Store :=
match findOrder st oid, findProduct st pid with
| some o, some _ =>
  let st' : Store :=
    if (oid, pid) ∈ st.order_product then
      { st with order_product := st.order_product.erase (oid, pid) }
    else st
  (.resp 200 (dumpOrder st' o), st')
| _, _ => (.resp 404 (errObj "Order or product not found"), st)

/-- The aggregated error mapping of `ProductSchema.load` with
`partial=True` (PUT /products/id): required checks are relaxed to
absent-is-fine, while supplied values are still validated. -/
def productPatchErrors (p : ProductPayload) : List (String × List String) :=
fieldEntry "product_name"
    (if p.product_name = none then [] else productNameErrors p.product_name)
  ++ fieldEntry "price" (if p.price = none then [] else priceErrors p.price)

/-- Apply a partial-mode product load to an existing row: only supplied
fields change. -/
def applyProductPatch (q : Product) (p : ProductPayload) : Product :=
{ q with product_name := p.product_name.getD q.product_name,
         price := p.price.getD q.price }

/-- PUT /products/id (lines 215-227): 400 on an absent product; otherwise
a partial-mode load that validates the supplied fields, 400 with the error
mapping on failure, and on success mutates only the supplied fields and
commits. -/
def update_product (st : Store) (pid : Nat) (p : ProductPayload) :
    HttpResult × Store :=
match findProduct st pid with
| none => (.resp 400 (errObj "Product not found"), st)
| some q =>
  if productPatchErrors p = [] then
    let q' := applyProductPatch q p
    let st' : Store :=
      { st with products :=
          st.products.map (fun v => if v.id == pid then q' else v) }
    (.resp 200 (dumpProduct st' q'), st')
  else (.resp 400 (errsToJson (productPatchErrors p)), st)

/-- Wire payload for POST /orders: the loadable fields of `OrderSchema`.
The auto-generated primary key is dump-only, and the `user` and `products`
relationship fields are declared `dump_only=True`, so with `include_fk`
the loadable columns are `order_date` and `user_id`. -/
structure OrderPayload where
  order_date : Option Nat
  user_id : Option Nat
deriving Repr, DecidableEq

/-- Validation errors of the `user_id` field on Order load: auto-derived
from the non-nullable foreign-key column without a default, so required. -/
def userIdErrors (v : Option Nat) : List String :=
match v with
| none => ["Missing data for required field."]
| some _ => []

/-- The aggregated error mapping of a full `OrderSchema.load`: `user_id`
is required; `order_date` has a column default (`datetime.utcnow`), so it
is optional, and a supplied timestamp in the typed payload is always
well-formed. -/
def orderLoadErrors (p : OrderPayload) : List (String × List String) :=
fieldEntry "user_id" (userIdErrors p.user_id)

/-- The validated data of a successful `order_schema.load`; a missing
`order_date` is filled by the column default at insert time. -/
structure NewOrder where
  order_date : Option Nat
  user_id : Nat
deriving Repr, DecidableEq

/-- Create-mode `order_schema.load` (line 247). -/
def loadOrder (p : OrderPayload) :
    Except (List (String × List String)) NewOrder :=
if orderLoadErrors p = [] then
  .ok ⟨p.order_date, p.user_id.getD 0⟩
else .error (orderLoadErrors p)

/-- POST /orders (lines 244-253): load, 400 with the error mapping on
validation failure; otherwise insert and commit, answering 201. The
commit raises an unhandled IntegrityError when the foreign key does not
reference an existing user; `now` stands for `datetime.utcnow`, the
column default used when no order_date is supplied. -/
def create_order (st : Store) (now : Nat) (p : OrderPayload) :
    HttpResult × Store :=
match loadOrder p with
| .error errs => (.resp 400 (errsToJson errs), st)
| .ok no =>
  if st.users.any (fun v => v.id == no.user_id) then
    let o : Order :=
      ⟨nextId (st.orders.map Order.id), no.order_date.getD now, no.user_id⟩
    let st' : Store := { st with orders := st.orders ++ [o] }
    (.resp 201 (dumpOrder st' o), st')
  else
    (.serverError "IntegrityError: foreign key constraint fails on user_id",
     st)

/-- Claim C1: each schema dumps exactly the fixed truncation table. The
User dump carries id, name, address, email and orders reduced to id and
order_date; the Order dump carries id, order_date, user_id, its user
reduced to id, name, email and its products reduced to id, product_name,
price; the Product dump carries id, product_name, price and orders reduced
to id, order_date, user_id. -/
theorem c1_dump_truncation (st : Store) (u : User) (o : Order) (p : Product) :
    (dumpUser st u).keys = ["id", "name", "address", "email", "orders"]
    ∧ (dumpUser st u).getField "orders"
        = .arr ((userOrders st u.id).map dumpOrderBrief)
    ∧ (dumpOrderBrief o).keys = ["id", "order_date"]
    ∧ (dumpOrder st o).keys = ["id", "order_date", "user_id", "user", "products"]
    ∧ (dumpOrder st o).getField "user"
        = (findUser st o.user_id).elim Json.null dumpUserBrief
    ∧ (dumpUserBrief u).keys = ["id", "name", "email"]
    ∧ (dumpOrder st o).getField "products"
        = .arr ((orderProducts st o.id).map dumpProductBrief)
    ∧ (dumpProductBrief p).keys = ["id", "product_name", "price"]
    ∧ (dumpProduct st p).keys = ["id", "product_name", "price", "orders"]
    ∧ (dumpProduct st p).getField "orders"
        = .arr ((productOrders st p.id).map dumpOrderForProduct)
    ∧ (dumpOrderForProduct o).keys = ["id", "order_date", "user_id"] :=
⟨rfl, rfl, rfl, rfl, rfl, rfl, rfl, rfl, rfl, rfl, rfl⟩

/-- Claim C9: GET /users and GET /products each return status 200 with the
complete table contents, one dumped entity per stored row, in stored
(insertion) order, with no pagination and no filtering. -/
theorem c9_list_all (st : Store) :
    get_users st = .resp 200 (.arr (st.users.map (dumpUser st)))
    ∧ get_products st = .resp 200 (.arr (st.products.map (dumpProduct st)))
    ∧ (st.users.map (dumpUser st)).length = st.users.length
    ∧ (st.products.map (dumpProduct st)).length = st.products.length :=
⟨rfl, rfl, st.users.length_map _, st.products.length_map _⟩

set_option maxRecDepth 8000 in
/-- Claim C2 as stated is false on the code: `UserSchema` declares
`address = fields.Str(validate=Length(min=5, max=150))` without
`required=True`, so a payload missing address passes validation, and the
handler only fails later when the INSERT hits the NOT NULL column, an
unhandled IntegrityError answered as 500 rather than a 400 validation
error. The length half of the claim does hold: a supplied address loads
exactly when its length is between 5 and 150 inclusive. This theorem
evaluates the code at the failing input and at boundary inputs. -/
theorem c2_address_not_required_on_load :
    loadUser ⟨some "Alice", none, some "alice@example.com"⟩
      = .ok ⟨"Alice", none, "alice@example.com"⟩
    ∧ (create_user emptyStore ⟨some "Alice", none, some "alice@example.com"⟩).1
      = .serverError "IntegrityError: column address cannot be null"
    ∧ loadUser ⟨some "Alice", some "ab", some "alice@example.com"⟩
      = .error [("address", ["Length must be between 5 and 150."])]
    ∧ loadUser ⟨some "Alice", some "12345", some "alice@example.com"⟩
      = .ok ⟨"Alice", some "12345", "alice@example.com"⟩
    ∧ loadUser ⟨some "Alice", some (String.mk (List.replicate 150 'x')),
        some "alice@example.com"⟩
      = .ok ⟨"Alice", some (String.mk (List.replicate 150 'x')),
             "alice@example.com"⟩
    ∧ loadUser ⟨some "Alice", some (String.mk (List.replicate 151 'x')),
        some "alice@example.com"⟩
      = .error [("address", ["Length must be between 5 and 150."])] := by
  refine ⟨rfl, rfl, rfl, rfl, ?_, ?_⟩ <;> rfl

/-- Claim C5 as stated is false on the code, and the code contradicts its
own intent: on an absent id the handler calls `jsonify` on a set literal
(braces around the bare string User not found at line 143), not a dict, so
`jsonify` raises TypeError before the intended `400` is returned and Flask
answers 500. The handler performs no write, so the store is
unchanged (the embedded handler takes the store read-only). -/
theorem c5_get_user_absent_crashes :
    findUser emptyStore 7 = none
    ∧ get_user emptyStore 7
      = .serverError "TypeError: Object of type set is not JSON serializable"
    ∧ jsonify (.pyset ["User not found"])
      = .error "TypeError: Object of type set is not JSON serializable" :=
⟨rfl, rfl, rfl⟩

/-- Claim C8: deleting an absent product answers 404 with an error body
while deleting an absent user answers 400 with an error body, and in both
cases the store is returned unchanged, so no row is deleted. -/
theorem c8_delete_absent_asymmetry (st : Store) (uid pid : Nat)
    (hu : findUser st uid = none) (hp : findProduct st pid = none) :
    delete_user st uid = (.resp 400 (errObj "User not found"), st)
    ∧ delete_product st pid = (.resp 404 (errObj "Product not found"), st) := by
  refine ⟨?_, ?_⟩
  · simp [delete_user, hu]
  · simp [delete_product, hp]

/-- Witness for `c8_delete_absent_asymmetry` at the empty store. -/
theorem c8_delete_absent_asymmetry_witness :
    delete_user emptyStore 3 = (.resp 400 (errObj "User not found"), emptyStore)
    ∧ delete_product emptyStore 4
      = (.resp 404 (errObj "Product not found"), emptyStore) :=
  c8_delete_absent_asymmetry emptyStore 3 4 rfl rfl

/-- Claim C10: when the order or the product of the pair is absent,
linking answers 400 with an error body while unlinking answers 404 with an
error body, and both leave the store (hence the association table)
unchanged. -/
theorem c10_link_unlink_absent_asymmetry (st : Store) (oid pid : Nat)
    (h : findOrder st oid = none ∨ findProduct st pid = none) :
    add_product_to_order st oid pid
      = (.resp 400 (errObj "Order or product not found"), st)
    ∧ remove_product_from_order st oid pid
      = (.resp 404 (errObj "Order or product not found"), st) := by
  rcases h with h | h
  · cases hp : findProduct st pid <;>
      exact ⟨by simp [add_product_to_order, h, hp],
             by simp [remove_product_from_order, h, hp]⟩
  · cases ho : findOrder st oid <;>
      exact ⟨by simp [add_product_to_order, h, ho],
             by simp [remove_product_from_order, h, ho]⟩

/-- Witness for `c10_link_unlink_absent_asymmetry` at the empty store. -/
theorem c10_link_unlink_absent_asymmetry_witness :
    add_product_to_order emptyStore 1 2
      = (.resp 400 (errObj "Order or product not found"), emptyStore)
    ∧ remove_product_from_order emptyStore 1 2
      = (.resp 404 (errObj "Order or product not found"), emptyStore) :=
  c10_link_unlink_absent_asymmetry emptyStore 1 2 (Or.inl rfl)

/-- Claim C7: unlinking a product that exists but is not linked to the
(existing) order answers 200, raises nothing, and returns the store
unchanged, so the product list of the order is unchanged too. -/
theorem c7_remove_unlinked_noop (st : Store) (oid pid : Nat) (o : Order)
    (p : Product) (ho : findOrder st oid = some o)
    (hp : findProduct st pid = some p)
    (hnl : (oid, pid) ∉ st.order_product) :
    remove_product_from_order st oid pid = (.resp 200 (dumpOrder st o), st)
    ∧ orderProducts (remove_product_from_order st oid pid).2 oid
      = orderProducts st oid := by
  have h1 : remove_product_from_order st oid pid
      = (.resp 200 (dumpOrder st o), st) := by
    simp [remove_product_from_order, ho, hp, hnl]
  exact ⟨h1, by rw [h1]⟩

/-- A store with one order, one product and no association row, used to
witness the relational claims. -/
def sampleStore : Store := ⟨[], [⟨1, 20250101, 1⟩], [⟨1, "Widget", 999⟩], []⟩

/-- The one order of `sampleStore`. -/
def sampleOrder : Order := ⟨1, 20250101, 1⟩

/-- The one product of `sampleStore`. -/
def sampleProduct : Product := ⟨1, "Widget", 999⟩

/-- Witness for `c7_remove_unlinked_noop` on `sampleStore`. -/
theorem c7_remove_unlinked_noop_witness :
    remove_product_from_order sampleStore 1 1
      = (.resp 200 (dumpOrder sampleStore sampleOrder), sampleStore)
    ∧ orderProducts (remove_product_from_order sampleStore 1 1).2 1
      = orderProducts sampleStore 1 :=
  c7_remove_unlinked_noop sampleStore 1 1 sampleOrder sampleProduct rfl rfl
    (by decide)

/-- A field name appears among the keys of a field entry exactly when the
message list of that field is nonempty. -/
lemma mem_map_fst_fieldEntry (k k' : String) (es : List String) :
    k' ∈ (fieldEntry k es).map Prod.fst ↔ k' = k ∧ es ≠ [] := by
  unfold fieldEntry
  split <;> simp_all

/-- Every entry of a field entry carries a nonempty message list. -/
lemma snd_ne_nil_of_mem_fieldEntry (kv : String × List String) (k : String)
    (es : List String) (h : kv ∈ fieldEntry k es) : kv.2 ≠ [] := by
  unfold fieldEntry at h
  split at h
  · simp at h
  · rename_i hne
    simp at h
    rw [h]
    exact hne

/-- Claim C6: every POST or PUT with one or more invalid fields answers
400, leaves the store unchanged, and the body is the field-to-messages
mapping that lists exactly the offending fields, each with a nonempty
message list. Covered writes: POST /users, POST /products, PUT /users/id
and PUT /products/id (on an existing row, where validation is reached),
and POST /orders, whose required user_id can offend. -/
theorem c6_validation_error_aggregation (st : Store) (pu pu2 : UserPayload)
    (pp pp2 : ProductPayload) (po : OrderPayload) (uid pid now : Nat)
    (u0 : User) (q0 : Product)
    (hu : userLoadErrors pu ≠ []) (hp : productLoadErrors pp ≠ [])
    (hu0 : findUser st uid = some u0) (hu2 : userPatchErrors pu2 ≠ [])
    (hq0 : findProduct st pid = some q0) (hp2 : productPatchErrors pp2 ≠ [])
    (ho : orderLoadErrors po ≠ []) :
    (create_user st pu).1 = .resp 400 (errsToJson (userLoadErrors pu))
    ∧ (create_user st pu).2 = st
    ∧ (create_product st pp).1 = .resp 400 (errsToJson (productLoadErrors pp))
    ∧ (create_product st pp).2 = st
    ∧ (update_user st uid pu2).1
      = .resp 400 (errsToJson (userPatchErrors pu2))
    ∧ (update_user st uid pu2).2 = st
    ∧ (update_product st pid pp2).1
      = .resp 400 (errsToJson (productPatchErrors pp2))
    ∧ (update_product st pid pp2).2 = st
    ∧ (create_order st now po).1 = .resp 400 (errsToJson (orderLoadErrors po))
    ∧ (create_order st now po).2 = st
    ∧ ("name" ∈ (userLoadErrors pu).map Prod.fst
        ↔ nameErrors pu.name ≠ [])
    ∧ ("address" ∈ (userLoadErrors pu).map Prod.fst
        ↔ addressErrors pu.address ≠ [])
    ∧ ("email" ∈ (userLoadErrors pu).map Prod.fst
        ↔ emailErrors pu.email ≠ [])
    ∧ ("product_name" ∈ (productLoadErrors pp).map Prod.fst
        ↔ productNameErrors pp.product_name ≠ [])
    ∧ ("price" ∈ (productLoadErrors pp).map Prod.fst
        ↔ priceErrors pp.price ≠ [])
    ∧ ("name" ∈ (userPatchErrors pu2).map Prod.fst
        ↔ pu2.name ≠ none ∧ nameErrors pu2.name ≠ [])
    ∧ ("address" ∈ (userPatchErrors pu2).map Prod.fst
        ↔ addressErrors pu2.address ≠ [])
    ∧ ("email" ∈ (userPatchErrors pu2).map Prod.fst
        ↔ pu2.email ≠ none ∧ emailErrors pu2.email ≠ [])
    ∧ ("product_name" ∈ (productPatchErrors pp2).map Prod.fst
        ↔ pp2.product_name ≠ none ∧ productNameErrors pp2.product_name ≠ [])
    ∧ ("price" ∈ (productPatchErrors pp2).map Prod.fst
        ↔ pp2.price ≠ none ∧ priceErrors pp2.price ≠ [])
    ∧ ("user_id" ∈ (orderLoadErrors po).map Prod.fst
        ↔ userIdErrors po.user_id ≠ [])
    ∧ (∀ kv ∈ userLoadErrors pu, kv.2 ≠ [])
    ∧ (∀ kv ∈ productLoadErrors pp, kv.2 ≠ [])
    ∧ (∀ kv ∈ userPatchErrors pu2, kv.2 ≠ [])
    ∧ (∀ kv ∈ productPatchErrors pp2, kv.2 ≠ [])
    ∧ (∀ kv ∈ orderLoadErrors po, kv.2 ≠ []) := by
  have hcu : create_user st pu = (.resp 400 (errsToJson (userLoadErrors pu)), st) := by
    unfold create_user loadUser
    rw [if_neg hu]
  have hcp : create_product st pp
      = (.resp 400 (errsToJson (productLoadErrors pp)), st) := by
    unfold create_product loadProduct
    rw [if_neg hp]
  have hcu2 : update_user st uid pu2
      = (.resp 400 (errsToJson (userPatchErrors pu2)), st) := by
    simp [update_user, hu0, hu2]
  have hcp2 : update_product st pid pp2
      = (.resp 400 (errsToJson (productPatchErrors pp2)), st) := by
    simp [update_product, hq0, hp2]
  have hco : create_order st now po
      = (.resp 400 (errsToJson (orderLoadErrors po)), st) := by
    unfold create_order loadOrder
    rw [if_neg ho]
  refine ⟨by rw [hcu], by rw [hcu], by rw [hcp], by rw [hcp],
    by rw [hcu2], by rw [hcu2], by rw [hcp2], by rw [hcp2],
    by rw [hco], by rw [hco],
    ?_, ?_, ?_, ?_, ?_, ?_, ?_, ?_, ?_, ?_, ?_, ?_, ?_, ?_, ?_, ?_⟩
  · simp only [userLoadErrors, List.map_append, List.mem_append,
      mem_map_fst_fieldEntry]
    simp
  · simp only [userLoadErrors, List.map_append, List.mem_append,
      mem_map_fst_fieldEntry]
    simp
  · simp only [userLoadErrors, List.map_append, List.mem_append,
      mem_map_fst_fieldEntry]
    simp
  · simp only [productLoadErrors, List.map_append, List.mem_append,
      mem_map_fst_fieldEntry]
    simp
  · simp only [productLoadErrors, List.map_append, List.mem_append,
      mem_map_fst_fieldEntry]
    simp
  · simp only [userPatchErrors, List.map_append, List.mem_append,
      mem_map_fst_fieldEntry]
    cases hn : pu2.name <;> simp [hn]
  · simp only [userPatchErrors, List.map_append, List.mem_append,
      mem_map_fst_fieldEntry]
    simp
  · simp only [userPatchErrors, List.map_append, List.mem_append,
      mem_map_fst_fieldEntry]
    cases he : pu2.email <;> simp [he]
  · simp only [productPatchErrors, List.map_append, List.mem_append,
      mem_map_fst_fieldEntry]
    cases hpn : pp2.product_name <;> simp [hpn]
  · simp only [productPatchErrors, List.map_append, List.mem_append,
      mem_map_fst_fieldEntry]
    cases hpr : pp2.price <;> simp [hpr, priceErrors]
  · simp only [orderLoadErrors, mem_map_fst_fieldEntry]
    simp
  · intro kv hkv
    unfold userLoadErrors at hkv
    rcases List.mem_append.mp hkv with hkv | hkv
    · rcases List.mem_append.mp hkv with hkv | hkv
      · exact snd_ne_nil_of_mem_fieldEntry _ _ _ hkv
      · exact snd_ne_nil_of_mem_fieldEntry _ _ _ hkv
    · exact snd_ne_nil_of_mem_fieldEntry _ _ _ hkv
  · intro kv hkv
    unfold productLoadErrors at hkv
    rcases List.mem_append.mp hkv with hkv | hkv
    · exact snd_ne_nil_of_mem_fieldEntry _ _ _ hkv
    · exact snd_ne_nil_of_mem_fieldEntry _ _ _ hkv
  · intro kv hkv
    unfold userPatchErrors at hkv
    rcases List.mem_append.mp hkv with hkv | hkv
    · rcases List.mem_append.mp hkv with hkv | hkv
      · exact snd_ne_nil_of_mem_fieldEntry _ _ _ hkv
      · exact snd_ne_nil_of_mem_fieldEntry _ _ _ hkv
    · exact snd_ne_nil_of_mem_fieldEntry _ _ _ hkv
  · intro kv hkv
    unfold productPatchErrors at hkv
    rcases List.mem_append.mp hkv with hkv | hkv
    · exact snd_ne_nil_of_mem_fieldEntry _ _ _ hkv
    · exact snd_ne_nil_of_mem_fieldEntry _ _ _ hkv
  · intro kv hkv
    unfold orderLoadErrors at hkv
    exact snd_ne_nil_of_mem_fieldEntry _ _ _ hkv

/-- A User payload with all three fields offending: name missing, address
too short, email missing. -/
def badUserPayload : UserPayload := ⟨none, some "abc", none⟩

/-- A Product payload with both fields missing. -/
def badProductPayload : ProductPayload := ⟨none, none⟩

/-- A store with one user and one product: the targets of the PUT calls
in the C6 witness. -/
def patchStore : Store :=
  ⟨[⟨1, "Alice", "1 Long Street", "alice@example.com"⟩], [],
   [⟨1, "Widget", 999⟩], []⟩

/-- The one user of `patchStore`. -/
def patchUser : User := ⟨1, "Alice", "1 Long Street", "alice@example.com"⟩

/-- A patch payload whose one supplied field, address, is too short. -/
def badUserPatch : UserPayload := ⟨none, some "ab", none⟩

/-- A patch payload whose one supplied field, product_name, exceeds the
100-character column bound. -/
def badProductPatch : ProductPayload :=
  ⟨some (String.mk (List.replicate 101 'x')), none⟩

/-- An Order payload missing the required user_id. -/
def badOrderPayload : OrderPayload := ⟨none, none⟩

set_option maxRecDepth 8000 in
/-- Witness for `c6_validation_error_aggregation`: offending create
payloads, offending patch payloads against `patchStore`, and an Order
payload without user_id. -/
theorem c6_validation_error_aggregation_witness :
    (create_user patchStore badUserPayload).1
      = .resp 400 (errsToJson (userLoadErrors badUserPayload))
    ∧ (create_user patchStore badUserPayload).2 = patchStore
    ∧ (create_product patchStore badProductPayload).1
      = .resp 400 (errsToJson (productLoadErrors badProductPayload))
    ∧ (create_product patchStore badProductPayload).2 = patchStore
    ∧ (update_user patchStore 1 badUserPatch).1
      = .resp 400 (errsToJson (userPatchErrors badUserPatch))
    ∧ (update_user patchStore 1 badUserPatch).2 = patchStore
    ∧ (update_product patchStore 1 badProductPatch).1
      = .resp 400 (errsToJson (productPatchErrors badProductPatch))
    ∧ (update_product patchStore 1 badProductPatch).2 = patchStore
    ∧ (create_order patchStore 0 badOrderPayload).1
      = .resp 400 (errsToJson (orderLoadErrors badOrderPayload))
    ∧ (create_order patchStore 0 badOrderPayload).2 = patchStore
    ∧ ("name" ∈ (userLoadErrors badUserPayload).map Prod.fst
        ↔ nameErrors badUserPayload.name ≠ [])
    ∧ ("address" ∈ (userLoadErrors badUserPayload).map Prod.fst
        ↔ addressErrors badUserPayload.address ≠ [])
    ∧ ("email" ∈ (userLoadErrors badUserPayload).map Prod.fst
        ↔ emailErrors badUserPayload.email ≠ [])
    ∧ ("product_name" ∈ (productLoadErrors badProductPayload).map Prod.fst
        ↔ productNameErrors badProductPayload.product_name ≠ [])
    ∧ ("price" ∈ (productLoadErrors badProductPayload).map Prod.fst
        ↔ priceErrors badProductPayload.price ≠ [])
    ∧ ("name" ∈ (userPatchErrors badUserPatch).map Prod.fst
        ↔ badUserPatch.name ≠ none ∧ nameErrors badUserPatch.name ≠ [])
    ∧ ("address" ∈ (userPatchErrors badUserPatch).map Prod.fst
        ↔ addressErrors badUserPatch.address ≠ [])
    ∧ ("email" ∈ (userPatchErrors badUserPatch).map Prod.fst
        ↔ badUserPatch.email ≠ none ∧ emailErrors badUserPatch.email ≠ [])
    ∧ ("product_name" ∈ (productPatchErrors badProductPatch).map Prod.fst
        ↔ badProductPatch.product_name ≠ none
          ∧ productNameErrors badProductPatch.product_name ≠ [])
    ∧ ("price" ∈ (productPatchErrors badProductPatch).map Prod.fst
        ↔ badProductPatch.price ≠ none
          ∧ priceErrors badProductPatch.price ≠ [])
    ∧ ("user_id" ∈ (orderLoadErrors badOrderPayload).map Prod.fst
        ↔ userIdErrors badOrderPayload.user_id ≠ [])
    ∧ (∀ kv ∈ userLoadErrors badUserPayload, kv.2 ≠ [])
    ∧ (∀ kv ∈ productLoadErrors badProductPayload, kv.2 ≠ [])
    ∧ (∀ kv ∈ userPatchErrors badUserPatch, kv.2 ≠ [])
    ∧ (∀ kv ∈ productPatchErrors badProductPatch, kv.2 ≠ [])
    ∧ (∀ kv ∈ orderLoadErrors badOrderPayload, kv.2 ≠ []) :=
  c6_validation_error_aggregation patchStore badUserPayload badUserPatch
    badProductPayload badProductPatch badOrderPayload 1 1 0 patchUser
    sampleProduct (by decide) (by decide) rfl (by decide) rfl (by decide)
    (by decide)

/-- After replacing the row whose id matches, the primary-key lookup finds
the replacement. -/
lemma find?_map_replace (l : List User) (uid : Nat) (u u' : User)
    (hfind : l.find? (fun v => v.id == uid) = some u) (hid : u'.id = uid) :
    (l.map (fun v => if v.id == uid then u' else v)).find?
      (fun v => v.id == uid) = some u' := by
  induction l with
  | nil => simp at hfind
  | cons v l ih =>
    by_cases h : v.id = uid
    · simp [List.find?_cons, h, hid]
    · have hb : (v.id == uid) = false := by simp [h]
      rw [List.find?_cons, hb] at hfind
      rw [List.map_cons, List.find?_cons]
      have hb2 : ((if (v.id == uid) = true then u' else v).id == uid) = false := by
        rw [if_neg (by simp [h])]
        exact hb
      rw [hb2]
      exact ih hfind

/-- Conditional replacement is idempotent on the list. -/
lemma map_replace_idem (l : List User) (uid : Nat) (u' : User) :
    (l.map (fun v => if v.id == uid then u' else v)).map
      (fun v => if v.id == uid then u' else v)
    = l.map (fun v => if v.id == uid then u' else v) := by
  rw [List.map_map]
  refine List.map_congr_left (fun v _ => ?_)
  by_cases h : v.id = uid <;> simp [Function.comp, h]

/-- Rows whose id differs are kept verbatim by the replacement map. -/
lemma mem_map_replace_of_ne (l : List User) (uid : Nat) (u' : User)
    (v : User) (hv : v ∈ l) (hne : v.id ≠ uid) :
    v ∈ l.map (fun w => if w.id == uid then u' else w) := by
  refine List.mem_map.mpr ⟨v, hv, ?_⟩
  have hb : (v.id == uid) = false := by simp [hne]
  simp [hb]

/-- Evaluation of PUT /users/id on a found user with an address-only body
that passes validation: the row is conditionally replaced and the updated
user dumped. -/
lemma update_user_valid_eq (st : Store) (uid : Nat) (u : User) (a : String)
    (hu : findUser st uid = some u)
    (hperr : userPatchErrors ⟨none, some a, none⟩ = []) :
    update_user st uid ⟨none, some a, none⟩
      = (HttpResult.resp 200
          (dumpUser
            (Store.mk
              (st.users.map
                (fun v => if v.id == uid then { u with address := a } else v))
              st.orders st.products st.order_product)
            { u with address := a }),
         Store.mk
          (st.users.map
            (fun v => if v.id == uid then { u with address := a } else v))
          st.orders st.products st.order_product) := by
  unfold update_user
  rw [hu, hperr]
  simp [applyUserPatch]

/-- Claim C4: on an existing user, a PUT whose body holds only a valid
address updates only the address of that user (name and email are carried
over unchanged), keeps every other row and table intact, answers 200 with
the dumped updated user, and repeating the identical request leaves the
state of the first call unchanged. -/
theorem c4_patch_address_update (st : Store) (uid : Nat) (u : User)
    (a : String) (hu : findUser st uid = some u) (h5 : 5 ≤ a.length)
    (h150 : a.length ≤ 150) :
    (update_user st uid ⟨none, some a, none⟩).1
      = .resp 200 (dumpUser (update_user st uid ⟨none, some a, none⟩).2
          { u with address := a })
    ∧ findUser (update_user st uid ⟨none, some a, none⟩).2 uid
      = some { u with address := a }
    ∧ (∀ v ∈ st.users, v.id ≠ uid
        → v ∈ (update_user st uid ⟨none, some a, none⟩).2.users)
    ∧ (update_user st uid ⟨none, some a, none⟩).2.orders = st.orders
    ∧ (update_user st uid ⟨none, some a, none⟩).2.products = st.products
    ∧ (update_user st uid ⟨none, some a, none⟩).2.order_product
      = st.order_product
    ∧ (update_user (update_user st uid ⟨none, some a, none⟩).2 uid
        ⟨none, some a, none⟩).2
      = (update_user st uid ⟨none, some a, none⟩).2 := by
  have hperr : userPatchErrors ⟨none, some a, none⟩ = [] := by
    simp [userPatchErrors, fieldEntry, addressErrors, h5, h150]
  have hmain := update_user_valid_eq st uid u a hu hperr
  have hfind2 : findUser (update_user st uid ⟨none, some a, none⟩).2 uid
      = some { u with address := a } := by
    rw [hmain]
    exact find?_map_replace st.users uid u _ hu
      (by have := List.find?_some hu; simpa using this)
  refine ⟨by rw [hmain], hfind2, ?_, by rw [hmain], by rw [hmain],
    by rw [hmain], ?_⟩
  · intro v hv hne
    rw [hmain]
    exact mem_map_replace_of_ne st.users uid _ v hv hne
  · have hmain2 := update_user_valid_eq (update_user st uid ⟨none, some a, none⟩).2
      uid { u with address := a } a hfind2 hperr
    rw [hmain2, hmain]
    simp only [List.map_map, Store.mk.injEq, and_true, true_and]
    refine List.map_congr_left (fun v _ => ?_)
    by_cases h : v.id = uid <;> simp [Function.comp, h]

/-- A store with one user, used to witness the update claim. -/
def userStore : Store :=
  ⟨[⟨1, "Alice", "1 Long Street", "alice@example.com"⟩], [], [], []⟩

/-- The one user of `userStore`. -/
def aliceUser : User := ⟨1, "Alice", "1 Long Street", "alice@example.com"⟩

/-- Witness for `c4_patch_address_update` on `userStore`. -/
theorem c4_patch_address_update_witness :
    (update_user userStore 1 ⟨none, some "45 Oak Avenue", none⟩).1
      = .resp 200 (dumpUser (update_user userStore 1
          ⟨none, some "45 Oak Avenue", none⟩).2
          { aliceUser with address := "45 Oak Avenue" })
    ∧ findUser (update_user userStore 1
        ⟨none, some "45 Oak Avenue", none⟩).2 1
      = some { aliceUser with address := "45 Oak Avenue" }
    ∧ (∀ v ∈ userStore.users, v.id ≠ 1
        → v ∈ (update_user userStore 1
            ⟨none, some "45 Oak Avenue", none⟩).2.users)
    ∧ (update_user userStore 1 ⟨none, some "45 Oak Avenue", none⟩).2.orders
      = userStore.orders
    ∧ (update_user userStore 1 ⟨none, some "45 Oak Avenue", none⟩).2.products
      = userStore.products
    ∧ (update_user userStore 1
        ⟨none, some "45 Oak Avenue", none⟩).2.order_product
      = userStore.order_product
    ∧ (update_user (update_user userStore 1
        ⟨none, some "45 Oak Avenue", none⟩).2 1
        ⟨none, some "45 Oak Avenue", none⟩).2
      = (update_user userStore 1 ⟨none, some "45 Oak Avenue", none⟩).2 :=
  c4_patch_address_update userStore 1 aliceUser "45 Oak Avenue" rfl
    (by decide) (by decide)

/-- A list with no occurrence of a pair filters to nothing on that pair. -/
lemma filter_pair_nil (l : List (Nat × Nat)) (pr : Nat × Nat) (hm : pr ∉ l) :
    l.filter (fun x => x == pr) = [] := by
  induction l with
  | nil => rfl
  | cons hd tl ih =>
    simp only [List.mem_cons, not_or] at hm
    have hb : (hd == pr) = false := by
      rw [beq_eq_false_iff_ne]
      exact fun he => hm.1 he.symm
    rw [List.filter_cons, hb]
    exact ih hm.2

/-- In a duplicate-free list a present pair filters to exactly one
occurrence. -/
lemma filter_pair_singleton (l : List (Nat × Nat)) (pr : Nat × Nat)
    (hnd : l.Nodup) (hm : pr ∈ l) :
    (l.filter (fun x => x == pr)).length = 1 := by
  induction l with
  | nil => simp at hm
  | cons hd tl ih =>
    rw [List.nodup_cons] at hnd
    rw [List.filter_cons]
    rcases List.mem_cons.mp hm with h | h
    · have hb : (hd == pr) = true := by simp [h]
      rw [hb]
      have htl : pr ∉ tl := by
        rw [h]
        exact hnd.1
      rw [if_pos rfl, filter_pair_nil tl pr htl]
      rfl
    · have hne : ¬ hd = pr := fun he => hnd.1 (by rw [he]; exact h)
      have hb : (hd == pr) = false := by
        rw [beq_eq_false_iff_ne]
        exact hne
      rw [hb]
      exact ih hnd.2 h

/-- Appending a fresh pair to a list with no occurrence of it yields
exactly one filtered occurrence. -/
lemma filter_pair_append_single (l : List (Nat × Nat)) (pr : Nat × Nat)
    (hm : pr ∉ l) :
    ((l ++ [pr]).filter (fun x => x == pr)).length = 1 := by
  rw [List.filter_append, filter_pair_nil l pr hm]
  simp

/-- Counting products with a given id among the products reached through
the association pairs of one order equals counting the association pair
itself, provided the product id resolves. -/
lemma count_filter_filterMap (ps : List Product) (l : List (Nat × Nat))
    (oid pid : Nat) (p : Product)
    (hp : ps.find? (fun q => q.id == pid) = some p) :
    (((l.filter (fun pr => pr.1 == oid)).filterMap
        (fun pr => ps.find? (fun q => q.id == pr.2))).filter
      (fun q => q.id == pid)).length
    = (l.filter (fun x => x == (oid, pid))).length := by
  have hpid0 := List.find?_some hp
  have hpid : (p.id == pid) = true := hpid0
  induction l with
  | nil => rfl
  | cons hd tl ih =>
    obtain ⟨hd1, hd2⟩ := hd
    by_cases h1 : hd1 = oid
    · subst h1
      by_cases h2 : hd2 = pid
      · subst h2
        simp [List.filter_cons, List.filterMap_cons, hp, hpid, ih]
      · have hpairf : (((hd1, hd2) : Nat × Nat) == (hd1, pid)) = false := by
          rw [beq_eq_false_iff_ne]
          exact fun hcontra => h2 (congrArg Prod.snd hcontra)
        cases hf : ps.find? (fun q => q.id == hd2) with
        | none =>
          simp [List.filter_cons, List.filterMap_cons, hf, hpairf, h2, ih]
        | some q =>
          have hq0 := List.find?_some hf
          have hq : (q.id == hd2) = true := hq0
          have hq2 : q.id = hd2 := by simpa using hq
          have hqb : (q.id == pid) = false := by
            rw [beq_eq_false_iff_ne, hq2]
            exact h2
          simp [List.filter_cons, List.filterMap_cons, hf, hpairf, hqb, h2,
            hq2, ih]
    · have hb1 : (hd1 == oid) = false := by
        rw [beq_eq_false_iff_ne]
        exact h1
      have hpairf : (((hd1, hd2) : Nat × Nat) == (oid, pid)) = false := by
        rw [beq_eq_false_iff_ne]
        exact fun hcontra => h1 (congrArg Prod.fst hcontra)
      simp [List.filter_cons, hb1, hpairf, h1, ih]

/-- The product-list count of one product inside one order equals the
association-table count of the pair. -/
lemma orderProducts_count (st : Store) (oid pid : Nat) (p : Product)
    (hp : findProduct st pid = some p) :
    ((orderProducts st oid).filter (fun q => q.id == pid)).length
      = (st.order_product.filter (fun x => x == (oid, pid))).length :=
  count_filter_filterMap st.products st.order_product oid pid p hp

/-- Evaluation of PUT add_product on an already-linked pair: no write. -/
lemma add_product_found_eq (st : Store) (oid pid : Nat) (o : Order)
    (p : Product) (ho : findOrder st oid = some o)
    (hp : findProduct st pid = some p)
    (hm : (oid, pid) ∈ st.order_product) :
    add_product_to_order st oid pid = (.resp 200 (dumpOrder st o), st) := by
  simp [add_product_to_order, ho, hp, hm]

/-- Evaluation of PUT add_product on a pair not yet linked: the pair is
appended to the association table. -/
lemma add_product_new_eq (st : Store) (oid pid : Nat) (o : Order)
    (p : Product) (ho : findOrder st oid = some o)
    (hp : findProduct st pid = some p)
    (hm : (oid, pid) ∉ st.order_product) :
    add_product_to_order st oid pid
      = (.resp 200
          (dumpOrder
            (Store.mk st.users st.orders st.products
              (st.order_product ++ [(oid, pid)])) o),
         Store.mk st.users st.orders st.products
          (st.order_product ++ [(oid, pid)])) := by
  simp [add_product_to_order, ho, hp, hm]

/-- Claim C3: with the order and the product both present and the
association table free of duplicate rows (its composite primary key),
linking twice equals linking once — the second call returns the same
response and the same store — the linked product then appears exactly once
in the product list of the order, and linking an already-linked pair
returns the store unchanged. -/
theorem c3_add_product_idempotent (st : Store) (oid pid : Nat) (o : Order)
    (p : Product) (ho : findOrder st oid = some o)
    (hp : findProduct st pid = some p) (hnd : st.order_product.Nodup) :
    add_product_to_order (add_product_to_order st oid pid).2 oid pid
      = add_product_to_order st oid pid
    ∧ ((orderProducts (add_product_to_order st oid pid).2 oid).filter
        (fun q => q.id == pid)).length = 1
    ∧ ((oid, pid) ∈ st.order_product
        → (add_product_to_order st oid pid).2 = st) := by
  by_cases hm : (oid, pid) ∈ st.order_product
  · have hmain := add_product_found_eq st oid pid o p ho hp hm
    refine ⟨?_, ?_, fun _ => by rw [hmain]⟩
    · rw [hmain]
      exact hmain
    · rw [hmain]
      have hcount : ((orderProducts st oid).filter
          (fun q => q.id == pid)).length = 1 := by
        rw [orderProducts_count st oid pid p hp]
        exact filter_pair_singleton st.order_product (oid, pid) hnd hm
      exact hcount
  · have hmain := add_product_new_eq st oid pid o p ho hp hm
    have hmain2 := add_product_found_eq
      (Store.mk st.users st.orders st.products
        (st.order_product ++ [(oid, pid)])) oid pid o p ho hp (by simp)
    refine ⟨?_, ?_, fun hmem => absurd hmem hm⟩
    · rw [hmain]
      exact hmain2
    · rw [hmain]
      have hcount : ((orderProducts
          (Store.mk st.users st.orders st.products
            (st.order_product ++ [(oid, pid)])) oid).filter
          (fun q => q.id == pid)).length = 1 := by
        rw [orderProducts_count
          (Store.mk st.users st.orders st.products
            (st.order_product ++ [(oid, pid)])) oid pid p hp]
        exact filter_pair_append_single st.order_product (oid, pid) hm
      exact hcount

/-- Witness for `c3_add_product_idempotent` on `sampleStore`. -/
theorem c3_add_product_idempotent_witness :
    add_product_to_order (add_product_to_order sampleStore 1 1).2 1 1
      = add_product_to_order sampleStore 1 1
    ∧ ((orderProducts (add_product_to_order sampleStore 1 1).2 1).filter
        (fun q => q.id == 1)).length = 1
    ∧ ((1, 1) ∈ sampleStore.order_product
        → (add_product_to_order sampleStore 1 1).2 = sampleStore) :=
  c3_add_product_idempotent sampleStore 1 1 sampleOrder sampleProduct rfl rfl
    (by decide)

end Project3
